import Mathlib

/-!
# Verification of the Stock-Analyzer Telegram bot

Shallow embedding of `bot_app.py` and `load_data.py`:

* the database-facing tool `sql_query_executor` (CSV serialisation of the
  query result, truncation to 50 rows, error strings instead of exceptions);
* the plotting tool `plot_data` (CSV parsing, date conversion, sorting,
  axis labels via Python `str.capitalize`);
* the SQL statements the program hands to the database driver, as pairs of
  query text and driver parameters;
* the loader script `load_data.py` (date parsing with coercion to missing,
  dropping unparseable rows, the year-2024 / technology filter, the
  dynamically built `CREATE TABLE` / `INSERT` statements);
* the Telegram handler `handle_message` with its Gemini tool-calling loop,
  modelled as a deterministic function of the update, the chat state, an
  environment giving each tool call's result, and a script of model
  responses; its observable effects are recorded in an event trace.

Strings are modelled as Lean `String`s; pandas timestamps are modelled by
encoding a calendar date `y-m-d` as the natural number `y*10000 + m*100 + d`
(only the year and the relative order of dates matter to the program).
-/

/-- Splitting a character list at every occurrence of a separator
(the structural-recursion core of `str.split`). -/
def splitOnChar (sep : Char) : List Char → List (List Char)
  | [] => [[]]
  | c :: cs =>
    if c = sep then [] :: splitOnChar sep cs
    else
      match splitOnChar sep cs with
      | [] => [[c]]
      | g :: gs => (c :: g) :: gs

/-- `s.split(sep)` on strings. -/
def strSplitOn (s : String) (sep : Char) : List String :=
  (splitOnChar sep s.data).map String.mk

/-- The first `n` characters of a string. -/
def strTake (s : String) (n : Nat) : String :=
  String.mk (s.data.take n)

/-- `p` is an initial segment of `s`. -/
def strStartsWith (p s : String) : Bool :=
  p.data.isPrefixOf s.data

/-- Numeric value of a string of decimal digits. -/
def digitsToNat (cs : List Char) : Nat :=
  cs.foldl (fun n c => n * 10 + (c.toNat - 48)) 0

/-- Python `str.capitalize`: first character upper-cased, the rest
lower-cased (as used for the axis labels in `plot_data`). -/
def pyCapitalize (s : String) : String :=
  match s.data with
  | [] => ""
  | c :: cs => String.mk (c.toUpper :: cs.map Char.toLower)

/-- Year component of an encoded date. -/
def yearOf (d : Nat) : Nat := d / 10000

/-- Model of `pd.to_datetime` on an ISO-style date string: the first ten
characters must have the shape `YYYY-MM-DD` with a plausible month and day;
any trailing time-of-day/zone suffix is ignored (`.dt.date` / `.dt.year`
only use the date part).  Returns `none` where pandas raises (or, with
`errors='coerce'`, produces `NaT`). -/
def parseDate (s : String) : Option Nat :=
  match strSplitOn (strTake s 10) '-' with
  | [ys, ms, ds] =>
    if ys.length = 4 ∧ ms.length = 2 ∧ ds.length = 2 ∧
        (ys ++ ms ++ ds).data.all Char.isDigit then
      let m := digitsToNat ms.data
      let d := digitsToNat ds.data
      if 1 ≤ m ∧ m ≤ 12 ∧ 1 ≤ d ∧ d ≤ 31 then
        some (digitsToNat ys.data * 10000 + m * 100 + d)
      else none
    else none
  | _ => none

/-- `DataFrame.to_csv(index=False)` for a frame with the given header and
rows: the header line followed by one comma-joined line per row, each line
terminated by a newline.  (Field quoting is not modelled; the stock data
contains no commas or newlines inside fields.) -/
def toCsv (header : List String) (rows : List (List String)) : String :=
  String.intercalate "," header ++ "\n" ++
    String.join (rows.map (fun r => String.intercalate "," r ++ "\n"))

/-- Model of `pd.read_csv` on a simple unquoted CSV string: non-empty lines,
the first being the header, the rest the data rows. -/
def parseCsv (s : String) : List String × List (List String) :=
  match (strSplitOn s '\n').filter (fun l => l ≠ "") with
  | [] => ([], [])
  | h :: rest => (strSplitOn h ',', rest.map (fun l => strSplitOn l ','))

/-- Collects a list of optional values, failing if any entry is `none`
(models a vectorised `pd.to_datetime` call that raises on any bad entry). -/
def allSome : List (Option α) → Option (List α)
  | [] => some []
  | none :: _ => none
  | some a :: rest => (allSome rest).map (a :: ·)

/-! ## The database tool `sql_query_executor` (bot_app.py lines 122-143) -/

/-- Outcome of handing a query to the database driver: the connection may
fail (`db_connect` returned `None`), the query may raise, or it yields a
result frame with a header and data rows. -/
inductive DBResult where
  | connFail : DBResult
  | queryError (details : String) : DBResult
  | rows (header : List String) (data : List (List String)) : DBResult
deriving DecidableEq, Repr

def connErrorMsg : String :=
  "ERROR: Не удалось подключиться к базе данных. Проверьте настройки."

def noDataMsg : String := "No data found for the query."

def sqlErrorPrefix : String :=
  "ERROR_SQL: Ошибка выполнения запроса. Проверьте синтаксис SQL. Детали: "

/-- `sql_query_executor`, as a function of the database outcome for the
given query: connection failure and query errors become `ERROR…` strings,
an empty frame becomes the fixed no-data string, and otherwise the first 50
rows (`df.head(50)`) are serialised with `to_csv(index=False)`. -/
def sql_query_executor (db : DBResult) : String :=
  match db with
  | .connFail => connErrorMsg
  | .queryError details => sqlErrorPrefix ++ details
  | .rows header data =>
    if data = [] then noDataMsg
    else toCsv header (data.take 50)

/-! ## SQL statements handed to the driver

Each site in the program that sends SQL to `psycopg2`/`pd.read_sql` is
modelled as a `DriverQuery`: the query text together with the list of
driver-side parameters.  (The surrounding whitespace of Python's
triple-quoted strings is elided.) -/

structure DriverQuery where
  text : String
  params : List String
deriving DecidableEq, Repr

/-- `TARGET_TABLE` from bot_app.py line 36. -/
def TARGET_TABLE : String := "stock_data"

/-- The table-existence check in `get_db_schema` (bot_app.py lines 105-108):
an f-string interpolating only the constant `TARGET_TABLE`, executed with no
parameters. -/
def get_db_schema_query : DriverQuery :=
  ⟨"SELECT COUNT(*) FROM information_schema.tables WHERE table_name = '" ++
      TARGET_TABLE ++ "';", []⟩

/-- `pd.read_sql(sql_query, conn)` in `sql_query_executor` (line 131): the
model-supplied string is the query text itself, with no parameters. -/
def sql_query_executor_query (sql_query : String) : DriverQuery :=
  ⟨sql_query, []⟩

/-- One entry of `column_definitions` in load_data.py (lines 59-72). -/
def columnDefinition (col : String) : String :=
  if col = "Date" then "\"" ++ col ++ "\" TIMESTAMP WITH TIME ZONE"
  else if col = "Brand_Name" ∨ col = "Ticker" ∨ col = "Industry_Tag" ∨
      col = "Country" then "\"" ++ col ++ "\" VARCHAR(100)"
  else if col = "Volume" then "\"" ++ col ++ "\" BIGINT"
  else "\"" ++ col ++ "\" DECIMAL"

/-- `sql_columns_def` (load_data.py line 74). -/
def sql_columns_def (cols : List String) : String :=
  String.intercalate ", " (cols.map columnDefinition)

/-- `sql_columns_names` (load_data.py line 75). -/
def sql_columns_names (cols : List String) : String :=
  String.intercalate ", " (cols.map (fun c => "\"" ++ c ++ "\""))

/-- `sql_placeholders` (load_data.py line 76). -/
def sql_placeholders (cols : List String) : String :=
  String.intercalate ", " (cols.map (fun _ => "%s"))

/-- The `CREATE TABLE IF NOT EXISTS stock_data (...)` statement
(load_data.py lines 79-81), executed with no parameters. -/
def create_table_query (cols : List String) : DriverQuery :=
  ⟨"CREATE TABLE IF NOT EXISTS stock_data (" ++ sql_columns_def cols ++ ");",
    []⟩

/-- One `INSERT INTO stock_data (...) VALUES (%s, ..., %s)` statement of the
insert loop (load_data.py lines 92-95): the text interpolates only the
column names and `%s` placeholders; the row values travel as driver
parameters. -/
def insert_query (cols : List String) (values : List String) : DriverQuery :=
  ⟨"INSERT INTO stock_data (" ++ sql_columns_names cols ++ ") VALUES (" ++
      sql_placeholders cols ++ ");", values⟩

/-! ## The loader pipeline (load_data.py lines 14-39) -/

/-- An input CSV row of the loader, with the two fields the filter reads and
the remaining column values kept abstract. -/
structure RawRow where
  date : String
  industry_Tag : String
  rest : List String
deriving DecidableEq, Repr

/-- A row that survived date parsing: its parsed timestamp plus the raw
row. -/
structure ParsedRow where
  dateVal : Nat
  raw : RawRow
deriving DecidableEq, Repr

/-- The loader's row pipeline: `pd.to_datetime(..., errors='coerce')`
followed by `dropna` (rows whose date fails to parse are dropped), then the
filter `Year_Extracted == 2024 and Industry_Tag == 'technology'`.  The
resulting list is exactly what the insert loop (lines 87-95) writes to
`stock_data`. -/
def load_data_rows (input : List RawRow) : List ParsedRow :=
  (input.filterMap
      (fun r => (parseDate r.date).map (fun d => ParsedRow.mk d r))).filter
    (fun p => yearOf p.dateVal == 2024 && p.raw.industry_Tag == "technology")

/-! ## The plotting tool `plot_data` (bot_app.py lines 146-179) -/

/-- What `plot_data` draws when it succeeds: the figure title, the two axis
labels, and the plotted points as (encoded date, raw y-value) pairs in
plotting order.  The call always uses `marker='o'`, `linestyle='-'`
(a connected line plot); those literals carry no data so they are not
fields. -/
structure PlotSpec where
  title : String
  xlabel : String
  ylabel : String
  points : List (Nat × String)
deriving DecidableEq, Repr

/-- `plot_data` either hands back an in-memory PNG buffer (modelled by what
was drawn into it) or an `ERROR_PLOT…` string. -/
inductive PlotResult where
  | buffer (spec : PlotSpec)
  | error (msg : String)
deriving DecidableEq, Repr

def PlotResult.isBuffer : PlotResult → Bool
  | .buffer _ => true
  | .error _ => false

def plotEmptyMsg : String := "ERROR_PLOT: Нет данных для построения графика."

/-- The `except`-branch message of `plot_data`; the Python f-string appends
the exception text, which is not modelled. -/
def plotFailMsg : String :=
  "ERROR_PLOT: Ошибка при обработке или построении графика."

/-- `df.sort_values(by=x_col)` sorts the rows by the parsed date in the x
column. -/
def dateRowLe (p q : Nat × List String) : Prop := p.1 ≤ q.1

instance : DecidableRel dateRowLe := fun p q => Nat.decLe p.1 q.1

instance : IsTotal (Nat × List String) dateRowLe :=
  ⟨fun a b => Nat.le_total a.1 b.1⟩

instance : IsTrans (Nat × List String) dateRowLe :=
  ⟨fun _ _ _ h1 h2 => Nat.le_trans h1 h2⟩

/-- Nondecreasing-date order on plotted points. -/
def datePointLe (p q : Nat × String) : Prop := p.1 ≤ q.1

/-- `plot_data`: parse the CSV, reject an empty frame, convert the x column
to dates and sort by it when the x column exists, then plot x against y.
Any raising step (`read_csv` on a headerless or ragged input,
`pd.to_datetime` on an unparseable date, `df[x_col]`/`df[y_col]` on a
missing column) lands in the `except` branch and yields an `ERROR_PLOT…`
string. -/
def plot_data (data_csv title x_col y_col : String) : PlotResult :=
  let parsed := parseCsv data_csv
  let header := parsed.1
  let rows := parsed.2
  if header = [] then .error plotFailMsg
  else if ¬ rows.all (fun r => r.length == header.length) then
    .error plotFailMsg
  else if rows = [] then .error plotEmptyMsg
  else
    match header.findIdx? (fun c => c == x_col) with
    | none => .error plotFailMsg
    | some xi =>
      match allSome (rows.map (fun r => (r.get? xi).bind parseDate)) with
      | none => .error plotFailMsg
      | some dates =>
        let sorted := List.insertionSort dateRowLe (dates.zip rows)
        match header.findIdx? (fun c => c == y_col) with
        | none => .error plotFailMsg
        | some yi =>
          .buffer ⟨title, pyCapitalize x_col, pyCapitalize y_col,
            sorted.map (fun p => (p.1, (p.2.get? yi).getD ""))⟩

/-! ## The Telegram handler `handle_message` (bot_app.py lines 230-324)

The Gemini side is a script: each `chat_session.send_message` consumes the
next `ModelStep`, which is either a model response (text plus a possibly
empty list of function calls) or a raised exception.  Tool results are
given by a `ToolEnv`, a function from a requested call to what the Python
tool returns (a string, or for `plot_data` possibly an in-memory buffer,
identified by a number).  Observable effects are recorded as `Event`s;
`send_chat_action` typing indicators carry no data and are not recorded. -/

/-- The keyword arguments of a requested tool call, per tool signature. -/
inductive ToolArgs where
  | schemaArgs : ToolArgs
  | sqlArgs (sql_query : String) : ToolArgs
  | plotArgs (data_csv title x_col y_col : String) : ToolArgs
deriving DecidableEq, Repr

/-- A function call named by a model response. -/
structure FunctionCall where
  name : String
  args : ToolArgs
deriving DecidableEq, Repr

/-- What a Python tool invocation returns: a string, or an `io.BytesIO`
buffer (identified by a number). -/
inductive ToolResult where
  | str (s : String) : ToolResult
  | buf (b : Nat) : ToolResult
deriving DecidableEq, Repr

/-- Environment giving the result of each tool invocation. -/
def ToolEnv := FunctionCall → ToolResult

/-- One model response: the function calls it requests and its text. -/
structure ModelResponse where
  function_calls : List FunctionCall
  text : String
deriving DecidableEq, Repr

/-- What one `chat_session.send_message` call does: return a response, or
raise an `APIError`, or raise some other exception. -/
inductive ModelStep where
  | resp (r : ModelResponse) : ModelStep
  | raiseAPIError : ModelStep
  | raiseOther : ModelStep
deriving DecidableEq, Repr

/-- `context.chat_data`: the stored Gemini chat session (by id) and the
stored plot buffer, when present. -/
structure ChatState where
  gemini_chat : Option Nat
  plot_buffer : Option Nat
deriving DecidableEq, Repr

/-- Observable effects of `handle_message`, in order. -/
inductive Event where
  | sendUserText (t : String) : Event
  | toolExec (name : String) (args : ToolArgs) : Event
  | sendToolResponses (outs : List (String × String)) : Event
  | replyText (t : String) : Event
  | sendPhoto (b : Nat) : Event
deriving DecidableEq, Repr

def Event.isReplyText : Event → Bool
  | .replyText _ => true
  | _ => false

def Event.isSendPhoto : Event → Bool
  | .sendPhoto _ => true
  | _ => false

def Event.isSendUserText : Event → Bool
  | .sendUserText _ => true
  | _ => false

def Event.isSendToolResponses : Event → Bool
  | .sendToolResponses _ => true
  | _ => false

def Event.isToolExec : Event → Bool
  | .toolExec _ _ => true
  | _ => false

/-- The names of the functions in `AVAILABLE_TOOLS` (bot_app.py lines
182-186); dispatch in the loop is by `__name__`. -/
def AVAILABLE_TOOLS : List String :=
  ["get_db_schema", "sql_query_executor", "plot_data"]

def plotSuccessMsg : String :=
  "SUCCESS: График успешно создан и готов к отправке пользователю."

def unknownFuncMsg : String := "ERROR: Unknown function called."

def clientErrorMsg : String :=
  "❌ Внутренняя ошибка: Gemini Client не инициализирован."

def sessionErrorMsg : String :=
  "❌ Извините, не удалось подключиться к Gemini API и начать чат."

def apiApologyMsg : String :=
  "Извините, произошла ошибка Gemini API. Попробуйте снова позже."

def unexpectedApologyMsg : String :=
  "Произошла непредвиденная ошибка. Пожалуйста, проверьте логи."

/-- `str(result)` on an `io.BytesIO` object (its repr; the exact address
text is irrelevant, only that it is some string). -/
def strOfBuf (b : Nat) : String := "io.BytesIO object " ++ toString b

/-- The `result` string placed in the function response for one call
(bot_app.py lines 276-298): known `plot_data` calls that return a buffer
report the fixed SUCCESS message, other known calls report `str(result)`,
and unknown names report the fixed ERROR message. -/
def toolOutput (env : ToolEnv) (c : FunctionCall) : String :=
  if c.name ∈ AVAILABLE_TOOLS then
    match env c with
    | .buf b => if c.name = "plot_data" then plotSuccessMsg else strOfBuf b
    | .str s => s
  else unknownFuncMsg

/-- The buffer a single call stores into `chat_data['plot_buffer']`, if
any: only a call named `plot_data` whose result is a `BytesIO`. -/
def callBuf (env : ToolEnv) (c : FunctionCall) : Option Nat :=
  if c.name = "plot_data" then
    match env c with
    | .buf b => some b
    | .str _ => none
  else none

/-- The last buffer stored while executing a list of calls, if any. -/
def lastPlotBuf (env : ToolEnv) : List FunctionCall → Option Nat
  | [] => none
  | c :: cs =>
    match lastPlotBuf env cs with
    | some b => some b
    | none => callBuf env c

/-- Executing one requested call (the body of the `for call in
function_calls` loop): a known name is looked up in `AVAILABLE_TOOLS` and
invoked (recorded as a `toolExec` event); a `plot_data` buffer result is
stored in the chat state. Returns the events, the response string, and the
updated state. -/
def execCall (env : ToolEnv) (c : FunctionCall) (st : ChatState) :
    List Event × String × ChatState :=
  if c.name ∈ AVAILABLE_TOOLS then
    match env c with
    | .buf b =>
      if c.name = "plot_data" then
        ([.toolExec c.name c.args], plotSuccessMsg,
          { st with plot_buffer := some b })
      else ([.toolExec c.name c.args], strOfBuf b, st)
    | .str s => ([.toolExec c.name c.args], s, st)
  else ([], unknownFuncMsg, st)

/-- Executing all calls of one response, collecting the function-response
parts in order. -/
def execCalls (env : ToolEnv) :
    List FunctionCall → ChatState → List Event × List (String × String) × ChatState
  | [], st => ([], [], st)
  | c :: cs, st =>
    let r1 := execCall env c st
    let r2 := execCalls env cs r1.2.2
    (r1.1 ++ r2.1, (c.name, r1.2.1) :: r2.2.1, r2.2.2)

/-- How the `while response.function_calls` loop ends: with a final
no-function-calls response, or with a raised `APIError` / other
exception. -/
inductive LoopEnd where
  | finalText (t : String) : LoopEnd
  | apiError : LoopEnd
  | otherError : LoopEnd
deriving DecidableEq, Repr

/-- The tool-calling loop: as long as the current response carries function
calls, execute them, send the function responses back (one `send_message`,
consuming the next scripted step), and continue.  An exhausted script is a
raised `APIError` (the send never returned). -/
def toolLoop (env : ToolEnv) :
    List ModelStep → ChatState → List Event × ChatState × LoopEnd
  | [], st => ([], st, .apiError)
  | .raiseAPIError :: _, st => ([], st, .apiError)
  | .raiseOther :: _, st => ([], st, .otherError)
  | .resp r :: rest, st =>
    if r.function_calls = [] then ([], st, .finalText r.text)
    else
      let e1 := execCalls env r.function_calls st
      let e2 := toolLoop env rest e1.2.2
      (e1.1 ++ Event.sendToolResponses e1.2.1 :: e2.1, e2.2)

/-- How the loop ends, as a function of the script alone. -/
def loopEndp : List ModelStep → LoopEnd
  | [] => .apiError
  | .raiseAPIError :: _ => .apiError
  | .raiseOther :: _ => .otherError
  | .resp r :: rest =>
    if r.function_calls = [] then .finalText r.text else loopEndp rest

/-- The model responses the handler actually consumes: every response up to
and including the first one without function calls, stopping short at a
raised exception. -/
def consumedResponses : List ModelStep → List ModelResponse
  | [] => []
  | .raiseAPIError :: _ => []
  | .raiseOther :: _ => []
  | .resp r :: rest =>
    if r.function_calls = [] then [r] else r :: consumedResponses rest

/-- A Telegram message: its optional text (plus fields irrelevant here). -/
structure TgMessage where
  text : Option String
deriving DecidableEq, Repr

/-- A Telegram update: the optional message and the optional effective
chat (by id). -/
structure TgUpdate where
  message : Option TgMessage
  effective_chat : Option Nat
deriving DecidableEq, Repr

/-- Python exceptions that escape `handle_message` itself. -/
inductive PyError where
  | attributeError : PyError
deriving DecidableEq, Repr

/-- `handle_message`: the non-text guard (whose log line dereferences
`update.effective_chat`), the Gemini-client and chat-session checks, the
send of the user text, the tool-calling loop, the final text reply, and
the conditional photo send with deletion of the stored buffer.  `clientOk`
models whether module-level Gemini client initialisation succeeded;
`sessionOk` whether `get_chat_session` returns a session.  The two
`except` branches each produce a single apologetic reply. -/
def handle_message (env : ToolEnv) (steps : List ModelStep)
    (clientOk sessionOk : Bool) (u : TgUpdate) (st : ChatState) :
    Except PyError (List Event × ChatState) :=
  match u.message with
  | none =>
    match u.effective_chat with
    | none => .error .attributeError
    | some _ => .ok ([], st)
  | some m =>
    match m.text with
    | none =>
      match u.effective_chat with
      | none => .error .attributeError
      | some _ => .ok ([], st)
    | some user_text =>
      if clientOk = false then .ok ([.replyText clientErrorMsg], st)
      else
        let st1 : ChatState :=
          if st.gemini_chat = none then
            { st with gemini_chat := if sessionOk then some 1 else none }
          else st
        if st1.gemini_chat = none then
          .ok ([.replyText sessionErrorMsg], st1)
        else
          let run := toolLoop env steps st1
          match run.2.2 with
          | .finalText txt =>
            match run.2.1.plot_buffer with
            | some b =>
              .ok (Event.sendUserText user_text :: run.1 ++
                  [Event.replyText txt, Event.sendPhoto b],
                { run.2.1 with plot_buffer := none })
            | none =>
              .ok (Event.sendUserText user_text :: run.1 ++
                  [Event.replyText txt], run.2.1)
          | .apiError =>
            .ok (Event.sendUserText user_text :: run.1 ++
                [Event.replyText apiApologyMsg], run.2.1)
          | .otherError =>
            .ok (Event.sendUserText user_text :: run.1 ++
                [Event.replyText unexpectedApologyMsg], run.2.1)


/-! ## Derived trace functions -/

/-- Left-biased choice on optional buffers. -/
def optOr : Option Nat → Option Nat → Option Nat
  | some b, _ => some b
  | none, b => b

/-- The events a single call contributes (a known name is executed, an
unknown one is not). -/
def callEvents (c : FunctionCall) : List Event :=
  if c.name ∈ AVAILABLE_TOOLS then [.toolExec c.name c.args] else []

/-- The events a list of calls contributes. -/
def callsEvents (cs : List FunctionCall) : List Event :=
  cs.foldr (fun c acc => callEvents c ++ acc) []

/-- The event trace of the whole tool loop, as a function of the script. -/
def loopEvents (env : ToolEnv) : List ModelStep → List Event
  | [] => []
  | .raiseAPIError :: _ => []
  | .raiseOther :: _ => []
  | .resp r :: rest =>
    if r.function_calls = [] then []
    else
      callsEvents r.function_calls ++
        Event.sendToolResponses
            (r.function_calls.map (fun c => (c.name, toolOutput env c))) ::
          loopEvents env rest

/-- All function calls of the consumed responses, in execution order. -/
def allCalls (steps : List ModelStep) : List FunctionCall :=
  (consumedResponses steps).foldr (fun r acc => r.function_calls ++ acc) []

/-- Photo events of the reply step, as a function of the stored buffer. -/
def photoEvents : Option Nat → List Event
  | some b => [Event.sendPhoto b]
  | none => []

/-- The buffer stored in the chat state when the reply step runs: the last
buffer a `plot_data` call of this loop produced, or failing that whatever
the handler started with. -/
def finalBuffer (env : ToolEnv) (steps : List ModelStep) (st : ChatState) :
    Option Nat :=
  optOr (lastPlotBuf env (allCalls steps)) st.plot_buffer

/-! ## Concrete instances used in witnesses and counterexamples -/

/-- A tool environment where every `plot_data` invocation yields the buffer
numbered 7 and every other tool yields a one-row CSV string. -/
def cexEnv : ToolEnv := fun c =>
  if c.name = "plot_data" then .buf 7 else .str "Date,Close\n2024-01-01,1\n"

/-- A plain text update from chat 5. -/
def cexUpdate : TgUpdate := ⟨some ⟨some "покажи график"⟩, some 5⟩

/-- Script: the model requests one `plot_data` call, then the follow-up
`send_message` raises an `APIError`. -/
def cexSteps1 : List ModelStep :=
  [.resp ⟨[⟨"plot_data", .plotArgs "d" "t" "x" "y"⟩], ""⟩, .raiseAPIError]

/-- Script: a plain text answer with no function calls. -/
def cexSteps2 : List ModelStep := [.resp ⟨[], "готово"⟩]

/-- The full event trace of the second run in the C6 counterexample. -/
def cexRun2Events : List Event :=
  [Event.sendUserText "покажи график", Event.replyText "готово",
    Event.sendPhoto 7]

/-- Script: one `sql_query_executor` call, then a final text answer. -/
def wSteps : List ModelStep :=
  [.resp ⟨[⟨"sql_query_executor", .sqlArgs "SELECT 1"⟩], ""⟩,
    .resp ⟨[], "итог"⟩]

/-- Script: one `sql_query_executor` call, then the follow-up send raises
an `APIError`. -/
def wStepsApi : List ModelStep :=
  [.resp ⟨[⟨"sql_query_executor", .sqlArgs "SELECT 1"⟩], ""⟩,
    .raiseAPIError]

/-- A tool environment returning a plain string for every call. -/
def strEnv : ToolEnv := fun _ => .str "x"

/-- Script: one `plot_data` call, then a final text answer. -/
def wStepsPlot : List ModelStep :=
  [.resp ⟨[⟨"plot_data", .plotArgs "d" "t" "x" "y"⟩], ""⟩,
    .resp ⟨[], "итог"⟩]

/-! ## Characterisation lemmas for the tool loop -/

theorem optOr_assoc (a b c : Option Nat) :
    optOr (optOr a b) c = optOr a (optOr b c) := by
  cases a <;> rfl

theorem lastPlotBuf_eq_optOr (env : ToolEnv) (c : FunctionCall)
    (cs : List FunctionCall) :
    lastPlotBuf env (c :: cs) = optOr (lastPlotBuf env cs) (callBuf env c) := by
  cases h : lastPlotBuf env cs <;> simp [lastPlotBuf, h, optOr]

theorem lastPlotBuf_append (env : ToolEnv) (xs ys : List FunctionCall) :
    lastPlotBuf env (xs ++ ys) =
      optOr (lastPlotBuf env ys) (lastPlotBuf env xs) := by
  induction xs with
  | nil => cases h : lastPlotBuf env ys <;> simp [lastPlotBuf, optOr, h]
  | cons c xs ih =>
    rw [List.cons_append, lastPlotBuf_eq_optOr, ih, lastPlotBuf_eq_optOr,
      optOr_assoc]

theorem execCall_eq (env : ToolEnv) (c : FunctionCall) (st : ChatState) :
    execCall env c st =
      (callEvents c, toolOutput env c,
        { st with plot_buffer := optOr (callBuf env c) st.plot_buffer }) := by
  by_cases hm : c.name ∈ AVAILABLE_TOOLS
  · by_cases hp : c.name = "plot_data"
    · cases henv : env c with
      | str s =>
        simp +decide [execCall, callEvents, toolOutput, callBuf, hm, hp, henv, optOr]
      | buf b =>
        simp +decide [execCall, callEvents, toolOutput, callBuf, hm, hp, henv, optOr]
    · cases henv : env c with
      | str s => simp [execCall, callEvents, toolOutput, callBuf, hm, hp, henv, optOr]
      | buf b => simp [execCall, callEvents, toolOutput, callBuf, hm, hp, henv, optOr]
  · have hp : ¬ c.name = "plot_data" := by
      intro h
      exact hm (by rw [h]; simp [AVAILABLE_TOOLS])
    simp [execCall, callEvents, toolOutput, callBuf, hm, hp, optOr]

theorem execCalls_eq (env : ToolEnv) (cs : List FunctionCall) (st : ChatState) :
    execCalls env cs st =
      (callsEvents cs, cs.map (fun c => (c.name, toolOutput env c)),
        { st with plot_buffer := optOr (lastPlotBuf env cs) st.plot_buffer }) := by
  induction cs generalizing st with
  | nil => simp [execCalls, callsEvents, lastPlotBuf, optOr]
  | cons c cs ih =>
    simp only [execCalls, execCall_eq, ih, callsEvents, List.foldr_cons,
      List.map_cons, lastPlotBuf_eq_optOr, optOr_assoc]

theorem allCalls_cons_resp (r : ModelResponse) (rest : List ModelStep)
    (h : ¬ r.function_calls = []) :
    allCalls (ModelStep.resp r :: rest) = r.function_calls ++ allCalls rest := by
  simp [allCalls, consumedResponses, h]

theorem toolLoop_eq (env : ToolEnv) (steps : List ModelStep) (st : ChatState) :
    toolLoop env steps st =
      (loopEvents env steps,
        { st with plot_buffer := optOr (lastPlotBuf env (allCalls steps)) st.plot_buffer },
        loopEndp steps) := by
  induction steps generalizing st with
  | nil => simp [toolLoop, loopEvents, loopEndp, allCalls, consumedResponses,
      lastPlotBuf, optOr]
  | cons s rest ih =>
    cases s with
    | raiseAPIError =>
      simp [toolLoop, loopEvents, loopEndp, allCalls, consumedResponses,
        lastPlotBuf, optOr]
    | raiseOther =>
      simp [toolLoop, loopEvents, loopEndp, allCalls, consumedResponses,
        lastPlotBuf, optOr]
    | resp r =>
      by_cases h : r.function_calls = []
      · simp [toolLoop, loopEvents, loopEndp, allCalls, consumedResponses, h,
          lastPlotBuf, optOr]
      · rw [allCalls_cons_resp r rest h, lastPlotBuf_append, optOr_assoc]
        simp only [toolLoop, if_neg h, execCalls_eq, ih, loopEvents, loopEndp]

theorem callsEvents_toolExec (cs : List FunctionCall) :
    ∀ e ∈ callsEvents cs, e.isToolExec = true := by
  induction cs with
  | nil => simp [callsEvents]
  | cons c cs ih =>
    intro e he
    rcases List.mem_append.mp he with h | h
    · unfold callEvents at h
      split at h
      · rcases List.mem_singleton.mp h with rfl
        rfl
      · cases h
    · exact ih e h

theorem mem_callsEvents_of_mem (cs : List FunctionCall) (c : FunctionCall)
    (hc : c ∈ cs) (hm : c.name ∈ AVAILABLE_TOOLS) :
    Event.toolExec c.name c.args ∈ callsEvents cs := by
  induction cs with
  | nil => cases hc
  | cons d ds ih =>
    rcases List.mem_cons.mp hc with h | h
    · subst h
      exact List.mem_append.mpr (Or.inl (by simp [callEvents, hm]))
    · exact List.mem_append.mpr (Or.inr (ih h))

theorem loopEvents_kinds (env : ToolEnv) (steps : List ModelStep) :
    ∀ e ∈ loopEvents env steps,
      e.isToolExec = true ∨ e.isSendToolResponses = true := by
  induction steps with
  | nil => simp [loopEvents]
  | cons s rest ih =>
    cases s with
    | raiseAPIError => simp [loopEvents]
    | raiseOther => simp [loopEvents]
    | resp r =>
      by_cases h : r.function_calls = []
      · simp [loopEvents, h]
      · intro e he
        simp only [loopEvents, if_neg h, List.mem_append, List.mem_cons] at he
        rcases he with he | he | he
        · exact Or.inl (callsEvents_toolExec _ e he)
        · subst he
          exact Or.inr rfl
        · exact ih e he

theorem consumed_toolExec_mem (env : ToolEnv) (steps : List ModelStep) :
    ∀ r ∈ consumedResponses steps, ∀ c ∈ r.function_calls,
      c.name ∈ AVAILABLE_TOOLS →
        Event.toolExec c.name c.args ∈ loopEvents env steps := by
  induction steps with
  | nil => simp [consumedResponses]
  | cons s rest ih =>
    cases s with
    | raiseAPIError => simp [consumedResponses]
    | raiseOther => simp [consumedResponses]
    | resp r =>
      intro r' hr' c hc hm
      by_cases h : r.function_calls = []
      · simp only [consumedResponses, if_pos h, List.mem_singleton] at hr'
        subst hr'
        rw [h] at hc
        cases hc
      · simp only [consumedResponses, if_neg h, List.mem_cons] at hr'
        simp only [loopEvents, if_neg h, List.mem_append, List.mem_cons]
        rcases hr' with rfl | hr'
        · exact Or.inl (mem_callsEvents_of_mem _ c hc hm)
        · exact Or.inr (Or.inr (ih r' hr' c hc hm))

theorem consumed_sendTool_mem (env : ToolEnv) (steps : List ModelStep) :
    ∀ r ∈ consumedResponses steps, ¬ r.function_calls = [] →
      Event.sendToolResponses
          (r.function_calls.map (fun c => (c.name, toolOutput env c))) ∈
        loopEvents env steps := by
  induction steps with
  | nil => simp [consumedResponses]
  | cons s rest ih =>
    cases s with
    | raiseAPIError => simp [consumedResponses]
    | raiseOther => simp [consumedResponses]
    | resp r =>
      intro r' hr' hne
      by_cases h : r.function_calls = []
      · simp only [consumedResponses, if_pos h, List.mem_singleton] at hr'
        subst hr'
        exact absurd h hne
      · simp only [consumedResponses, if_neg h, List.mem_cons] at hr'
        simp only [loopEvents, if_neg h, List.mem_append, List.mem_cons]
        rcases hr' with rfl | hr'
        · exact Or.inr (Or.inl rfl)
        · exact Or.inr (Or.inr (ih r' hr' hne))

theorem isSendToolResponses_false_of_isToolExec (e : Event)
    (h : e.isToolExec = true) : e.isSendToolResponses = false := by
  cases e <;> first | rfl | cases h

theorem callsEvents_sendTool_count (cs : List FunctionCall) :
    (callsEvents cs).countP Event.isSendToolResponses = 0 := by
  rw [List.countP_eq_zero]
  intro e he
  simp [isSendToolResponses_false_of_isToolExec e (callsEvents_toolExec cs e he)]

theorem loopEvents_sendTool_count (env : ToolEnv) (steps : List ModelStep) :
    (loopEvents env steps).countP Event.isSendToolResponses =
      (consumedResponses steps).countP (fun r => !r.function_calls.isEmpty) := by
  induction steps with
  | nil => simp [loopEvents, consumedResponses]
  | cons s rest ih =>
    cases s with
    | raiseAPIError => simp [loopEvents, consumedResponses]
    | raiseOther => simp [loopEvents, consumedResponses]
    | resp r =>
      by_cases h : r.function_calls = []
      · simp [loopEvents, consumedResponses, h, List.countP_cons]
      · simp only [loopEvents, consumedResponses, if_neg h, List.countP_append,
          List.countP_cons, callsEvents_sendTool_count, ih]
        have : r.function_calls.isEmpty = false := by
          cases hc : r.function_calls with
          | nil => exact absurd hc h
          | cons a l => rfl
        simp [this, Event.isSendToolResponses, Nat.add_comm]

theorem handle_message_final (env : ToolEnv) (steps : List ModelStep)
    (sOk : Bool) (t txt : String) (chat : Option Nat) (g : Nat)
    (st : ChatState) (hses : st.gemini_chat = some g)
    (hend : loopEndp steps = .finalText txt) :
    handle_message env steps true sOk ⟨some ⟨some t⟩, chat⟩ st =
      .ok (Event.sendUserText t :: loopEvents env steps ++
          Event.replyText txt :: photoEvents (finalBuffer env steps st),
        ⟨some g, none⟩) := by
  cases st with
  | mk gc pb =>
    cases hses
    simp only [handle_message, toolLoop_eq, hend, finalBuffer]
    cases h : optOr (lastPlotBuf env (allCalls steps)) pb <;>
      simp [h, photoEvents]

theorem handle_message_api (env : ToolEnv) (steps : List ModelStep)
    (sOk : Bool) (t : String) (chat : Option Nat) (g : Nat)
    (st : ChatState) (hses : st.gemini_chat = some g)
    (hend : loopEndp steps = .apiError) :
    handle_message env steps true sOk ⟨some ⟨some t⟩, chat⟩ st =
      .ok (Event.sendUserText t :: loopEvents env steps ++
          [Event.replyText apiApologyMsg],
        ⟨some g, finalBuffer env steps st⟩) := by
  cases st with
  | mk gc pb =>
    cases hses
    simp [handle_message, toolLoop_eq, hend, finalBuffer]

theorem isReplyText_false_of_kind (e : Event)
    (h : e.isToolExec = true ∨ e.isSendToolResponses = true) :
    e.isReplyText = false := by
  cases e <;> rcases h with h | h <;> first | rfl | cases h

theorem isSendPhoto_false_of_kind (e : Event)
    (h : e.isToolExec = true ∨ e.isSendToolResponses = true) :
    e.isSendPhoto = false := by
  cases e <;> rcases h with h | h <;> first | rfl | cases h

theorem isSendUserText_false_of_kind (e : Event)
    (h : e.isToolExec = true ∨ e.isSendToolResponses = true) :
    e.isSendUserText = false := by
  cases e <;> rcases h with h | h <;> first | rfl | cases h

theorem loopEvents_reply_count (env : ToolEnv) (steps : List ModelStep) :
    (loopEvents env steps).countP Event.isReplyText = 0 := by
  rw [List.countP_eq_zero]
  intro e he
  simp [isReplyText_false_of_kind e (loopEvents_kinds env steps e he)]

theorem loopEvents_photo_count (env : ToolEnv) (steps : List ModelStep) :
    (loopEvents env steps).countP Event.isSendPhoto = 0 := by
  rw [List.countP_eq_zero]
  intro e he
  simp [isSendPhoto_false_of_kind e (loopEvents_kinds env steps e he)]

theorem loopEvents_userText_count (env : ToolEnv) (steps : List ModelStep) :
    (loopEvents env steps).countP Event.isSendUserText = 0 := by
  rw [List.countP_eq_zero]
  intro e he
  simp [isSendUserText_false_of_kind e (loopEvents_kinds env steps e he)]

theorem handle_message_other (env : ToolEnv) (steps : List ModelStep)
    (sOk : Bool) (t : String) (chat : Option Nat) (g : Nat)
    (st : ChatState) (hses : st.gemini_chat = some g)
    (hend : loopEndp steps = .otherError) :
    handle_message env steps true sOk ⟨some ⟨some t⟩, chat⟩ st =
      .ok (Event.sendUserText t :: loopEvents env steps ++
          [Event.replyText unexpectedApologyMsg],
        ⟨some g, finalBuffer env steps st⟩) := by
  cases st with
  | mk gc pb =>
    cases hses
    simp [handle_message, toolLoop_eq, hend, finalBuffer]

theorem optOr_none_right (a : Option Nat) : optOr a none = a := by
  cases a <;> rfl

theorem mem_allCalls (steps : List ModelStep) (c : FunctionCall) :
    c ∈ allCalls steps ↔
      ∃ r ∈ consumedResponses steps, c ∈ r.function_calls := by
  unfold allCalls
  generalize consumedResponses steps = l
  induction l with
  | nil => simp
  | cons r rs ih => simp [List.mem_append, ih]

theorem callBuf_isSome (env : ToolEnv) (c : FunctionCall) :
    (callBuf env c).isSome = true ↔
      c.name = "plot_data" ∧ ∃ b, env c = ToolResult.buf b := by
  unfold callBuf
  by_cases h : c.name = "plot_data"
  · cases he : env c <;> simp [h, he]
  · simp [h]

theorem lastPlotBuf_isSome (env : ToolEnv) (cs : List FunctionCall) :
    (lastPlotBuf env cs).isSome = true ↔
      ∃ c ∈ cs, (callBuf env c).isSome = true := by
  induction cs with
  | nil => simp [lastPlotBuf]
  | cons c cs ih =>
    rw [lastPlotBuf_eq_optOr]
    cases h : lastPlotBuf env cs with
    | some b =>
      simp only [optOr, Option.isSome_some, true_iff]
      rcases ih.mp (by rw [h]; rfl) with ⟨c', hc', hb⟩
      exact ⟨c', List.mem_cons_of_mem c hc', hb⟩
    | none =>
      rw [h] at ih
      simp only [optOr]
      constructor
      · intro hc
        exact ⟨c, List.mem_cons_self c cs, hc⟩
      · rintro ⟨c', hc', hb⟩
        rcases List.mem_cons.mp hc' with rfl | hc'
        · exact hb
        · exact absurd (ih.mpr ⟨c', hc', hb⟩) (by simp)

theorem handle_message_events (env : ToolEnv) (steps : List ModelStep)
    (sOk : Bool) (t : String) (chat : Option Nat) (g : Nat)
    (st : ChatState) (hses : st.gemini_chat = some g) :
    ∃ tailEvs st',
      handle_message env steps true sOk ⟨some ⟨some t⟩, chat⟩ st =
        .ok (Event.sendUserText t :: loopEvents env steps ++ tailEvs, st') ∧
      tailEvs.countP Event.isReplyText = 1 ∧
      tailEvs.countP Event.isSendToolResponses = 0 ∧
      tailEvs.countP Event.isSendUserText = 0 := by
  cases hend : loopEndp steps with
  | finalText txt =>
    refine ⟨Event.replyText txt :: photoEvents (finalBuffer env steps st),
      ⟨some g, none⟩,
      handle_message_final env steps sOk t txt chat g st hses hend, ?_, ?_, ?_⟩ <;>
      cases hb : finalBuffer env steps st <;>
        simp [photoEvents, List.countP_cons, Event.isReplyText,
          Event.isSendToolResponses, Event.isSendUserText]
  | apiError =>
    refine ⟨[Event.replyText apiApologyMsg], ⟨some g, finalBuffer env steps st⟩,
      handle_message_api env steps sOk t chat g st hses hend, ?_, ?_, ?_⟩ <;>
      simp [List.countP_cons, Event.isReplyText, Event.isSendToolResponses,
        Event.isSendUserText]
  | otherError =>
    refine ⟨[Event.replyText unexpectedApologyMsg],
      ⟨some g, finalBuffer env steps st⟩,
      handle_message_other env steps sOk t chat g st hses hend, ?_, ?_, ?_⟩ <;>
      simp [List.countP_cons, Event.isReplyText, Event.isSendToolResponses,
        Event.isSendUserText]

theorem strStartsWith_append (p s t : String) (h : strStartsWith p s = true) :
    strStartsWith p (s ++ t) = true := by
  unfold strStartsWith at h ⊢
  rw [String.data_append]
  rw [List.isPrefixOf_iff_prefix] at h ⊢
  exact h.trans (List.prefix_append s.data t.data)

/-! ## Claim C2 -/

/-- C2 counterexample: with 51 result rows the claim's premise holds (at
least one row, query executed), yet the returned string is not the
serialisation of the result rows: `df.head(50)` drops the 51st row, so the
output differs from `toCsv` of the full result. -/
theorem sql_query_executor_C2_counterexample :
    (List.replicate 51 (["x"] : List String) ≠ []) ∧
    sql_query_executor (.rows ["n"] (List.replicate 51 ["x"])) ≠
      toCsv ["n"] (List.replicate 51 ["x"]) := by
  constructor
  · decide
  · decide

/-- C2 amended: for every SQL query, if it executes and yields at least one
row the function returns the first `min n 50` result rows serialised as a
CSV string; if it yields no rows it returns exactly
"No data found for the query."; and if the connection or the execution
fails it returns a string beginning with "ERROR" instead of raising. -/
theorem sql_query_executor_C2 (db : DBResult) :
    (∀ header data, db = .rows header data → data ≠ [] →
      sql_query_executor db = toCsv header (data.take 50)) ∧
    (∀ header, db = .rows header [] → sql_query_executor db = noDataMsg) ∧
    (db = .connFail →
      strStartsWith "ERROR" (sql_query_executor db) = true) ∧
    (∀ m, db = .queryError m →
      strStartsWith "ERROR" (sql_query_executor db) = true) := by
  refine ⟨?_, ?_, ?_, ?_⟩
  · rintro header data rfl hne
    simp [sql_query_executor, hne]
  · rintro header rfl
    simp [sql_query_executor]
  · rintro rfl
    decide
  · rintro m rfl
    show strStartsWith "ERROR" (sqlErrorPrefix ++ m) = true
    exact strStartsWith_append "ERROR" sqlErrorPrefix m (by decide)

/-- C2 witness: the amended statement exercised on concrete database
outcomes, one per branch. -/
theorem sql_query_executor_C2_witness :
    sql_query_executor (.rows ["a"] [["1"]]) = toCsv ["a"] [["1"]] ∧
    sql_query_executor (.rows ["a"] []) = noDataMsg ∧
    strStartsWith "ERROR" (sql_query_executor .connFail) = true ∧
    strStartsWith "ERROR" (sql_query_executor (.queryError "oops")) = true :=
  ⟨by
    have h := (sql_query_executor_C2 (.rows ["a"] [["1"]])).1
    simpa using h ["a"] [["1"]] rfl (by decide),
   (sql_query_executor_C2 (.rows ["a"] [])).2.1 ["a"] rfl,
   (sql_query_executor_C2 .connFail).2.2.1 rfl,
   (sql_query_executor_C2 (.queryError "oops")).2.2.2 "oops" rfl⟩

/-! ## Claim C3 -/

/-- C3 counterexample: the query `sql_query_executor` hands to the driver
is not a parameterized query with fixed text: the runtime value (the
model-written SQL string) becomes the query text itself, verbatim, and the
parameter list is empty. -/
theorem sql_queries_C3_counterexample :
    (sql_query_executor_query "SELECT 1").text ≠
      (sql_query_executor_query "SELECT 2").text ∧
    (sql_query_executor_query "SELECT 1").text = "SELECT 1" ∧
    (sql_query_executor_query "SELECT 1").params = [] := by
  refine ⟨by decide, rfl, rfl⟩

/-- C3 amended: only the loader's INSERT statements are parameterized
(their text does not depend on the row values, which travel as driver
parameters); the bot's `sql_query_executor` sends the model-supplied query
text verbatim with an empty parameter list, and the schema check and
CREATE TABLE statements also carry no driver parameters (their text
interpolates the table and column names directly). -/
theorem sql_queries_C3 :
    (∀ cols values values',
      (insert_query cols values).text = (insert_query cols values').text) ∧
    (∀ cols values, (insert_query cols values).params = values) ∧
    (∀ q, (sql_query_executor_query q).text = q ∧
      (sql_query_executor_query q).params = []) ∧
    (∀ cols, (create_table_query cols).params = []) ∧
    get_db_schema_query.params = [] :=
  ⟨fun _ _ _ => rfl, fun _ _ => rfl, fun _ => ⟨rfl, rfl⟩, fun _ => rfl, rfl⟩

/-! ## Claim C4 -/

/-- C4: the loader and the bot use the same relational table: the bot's
`TARGET_TABLE` is "stock_data", and the loader's CREATE TABLE and INSERT
statements address exactly that table. -/
theorem stock_data_table_C4 :
    TARGET_TABLE = "stock_data" ∧
    (∀ cols, (create_table_query cols).text =
      "CREATE TABLE IF NOT EXISTS " ++ TARGET_TABLE ++ " (" ++
        sql_columns_def cols ++ ");") ∧
    (∀ cols values, (insert_query cols values).text =
      "INSERT INTO " ++ TARGET_TABLE ++ " (" ++ sql_columns_names cols ++
        ") VALUES (" ++ sql_placeholders cols ++ ");") :=
  ⟨rfl, fun _ => rfl, fun _ _ => rfl⟩

/-! ## Claim C8 -/

/-- C8: the CSV returned for a non-empty result serialises `data.take 50`,
which is a prefix of the result of length at most 50: when more than 50
rows come back only the first 50 are serialised and the rest are
dropped. -/
theorem sql_query_executor_C8 (header : List String)
    (data : List (List String)) (hne : data ≠ []) :
    sql_query_executor (.rows header data) = toCsv header (data.take 50) ∧
    (data.take 50).length ≤ 50 ∧
    List.IsPrefix (data.take 50) data ∧
    (data.take 50).length = min 50 data.length := by
  refine ⟨by simp [sql_query_executor, hne], ?_, List.take_prefix 50 data,
    List.length_take 50 data⟩
  rw [List.length_take]
  exact Nat.min_le_left 50 data.length

/-- C8 witness: a 51-row result is truncated to its first 50 rows. -/
theorem sql_query_executor_C8_witness :
    sql_query_executor (.rows ["n"] (List.replicate 51 ["y"])) =
      toCsv ["n"] ((List.replicate 51 ["y"]).take 50) ∧
    ((List.replicate 51 (["y"] : List String)).take 50).length ≤ 50 ∧
    List.IsPrefix ((List.replicate 51 (["y"] : List String)).take 50)
      (List.replicate 51 ["y"]) ∧
    ((List.replicate 51 (["y"] : List String)).take 50).length =
      min 50 (List.replicate 51 (["y"] : List String)).length :=
  sql_query_executor_C8 ["n"] (List.replicate 51 ["y"]) (by decide)

/-! ## Claim C9 -/

/-- C9: every row the loader inserts into stock_data parsed its Date
successfully, has year 2024, and has Industry_Tag equal to "technology";
rows with unparseable dates were dropped before the filter (each surviving
row's raw source is in the input and its date parsed to the stored
value). -/
theorem load_data_rows_C9 (input : List RawRow) :
    ∀ p ∈ load_data_rows input,
      parseDate p.raw.date = some p.dateVal ∧
      yearOf p.dateVal = 2024 ∧
      p.raw.industry_Tag = "technology" ∧
      p.raw ∈ input := by
  intro p hp
  unfold load_data_rows at hp
  rcases List.mem_filter.mp hp with ⟨hmem, hpred⟩
  rcases List.mem_filterMap.mp hmem with ⟨r, hr, heq⟩
  cases hd : parseDate r.date with
  | none => rw [hd] at heq; cases heq
  | some d =>
    rw [hd] at heq
    simp only [Option.map_some'] at heq
    cases heq
    simp only [Bool.and_eq_true, beq_iff_eq] at hpred
    exact ⟨hd, hpred.1, hpred.2, hr⟩

/-- C9 witness: a concrete four-row input in which only the 2024 technology
row with a parseable date is inserted. -/
theorem load_data_rows_C9_witness :
    parseDate (ParsedRow.mk 20240301 ⟨"2024-03-01", "technology", ["x"]⟩).raw.date =
      some 20240301 ∧
    yearOf 20240301 = 2024 ∧
    (RawRow.mk "2024-03-01" "technology" ["x"]).industry_Tag = "technology" ∧
    (RawRow.mk "2024-03-01" "technology" ["x"]) ∈
      [RawRow.mk "2024-03-01" "technology" ["x"],
        RawRow.mk "2023-03-01" "technology" [],
        RawRow.mk "2024-03-01" "finance" [], RawRow.mk "bad" "technology" []] :=
  load_data_rows_C9
    [⟨"2024-03-01", "technology", ["x"]⟩, ⟨"2023-03-01", "technology", []⟩,
      ⟨"2024-03-01", "finance", []⟩, ⟨"bad", "technology", []⟩]
    ⟨20240301, ⟨"2024-03-01", "technology", ["x"]⟩⟩ (by decide)

/-! ## Claim C10 -/

/-- C10 counterexample: on an update with no message and no effective chat,
the guard's logging line dereferences `update.effective_chat` and raises an
`AttributeError` instead of returning cleanly. -/
theorem handle_message_C10_counterexample :
    handle_message strEnv [] true true ⟨none, none⟩ ⟨none, none⟩ =
      .error .attributeError := rfl

/-- C10 amended: for every update whose message is absent or has no text,
provided the update has an effective chat (always the case for real message
updates), `handle_message` returns immediately: no exception, no events
(so no LLM contact and no reply), and the chat state unchanged. -/
theorem handle_message_C10 (env : ToolEnv) (steps : List ModelStep)
    (clientOk sessionOk : Bool) (u : TgUpdate) (st : ChatState) (cid : Nat)
    (hmsg : u.message = none ∨ ∃ m, u.message = some m ∧ m.text = none)
    (hchat : u.effective_chat = some cid) :
    handle_message env steps clientOk sessionOk u st = .ok ([], st) := by
  cases u with
  | mk msg chat =>
    rcases hmsg with h | ⟨m, hm, ht⟩
    · cases h
      cases hchat
      rfl
    · cases hm
      cases hchat
      cases m with
      | mk mt =>
        cases ht
        rfl

/-- C10 witness: a photo-style message (present message, absent text) in a
chat is ignored without any event. -/
theorem handle_message_C10_witness :
    handle_message strEnv [] true true ⟨some ⟨none⟩, some 5⟩ ⟨some 1, none⟩ =
      .ok ([], ⟨some 1, none⟩) :=
  handle_message_C10 strEnv [] true true ⟨some ⟨none⟩, some 5⟩ ⟨some 1, none⟩ 5
    (Or.inr ⟨⟨none⟩, rfl, rfl⟩) rfl

/-! ## Claim C1 -/

/-- C1: for a handled text message whose tool loop reaches a response with
no function calls (non-exception runs; the error paths are claim C7), the
trace decomposes as the user-text send, the loop events, the single text
reply, and possibly a photo: no text reply occurs among the loop events or
after-reply events; every call of a consumed call-carrying response whose
name is in AVAILABLE_TOOLS is executed with its supplied arguments before
the reply; and for each such response the full list of (name, result)
function responses is sent back to the model before the reply. -/
theorem handle_message_C1 (env : ToolEnv) (steps : List ModelStep)
    (sOk : Bool) (t txt : String) (chat : Option Nat) (g : Nat)
    (st : ChatState) (hses : st.gemini_chat = some g)
    (hend : loopEndp steps = .finalText txt) :
    ∃ loopEvs postEvs st',
      handle_message env steps true sOk ⟨some ⟨some t⟩, chat⟩ st =
        .ok (Event.sendUserText t :: loopEvs ++
          Event.replyText txt :: postEvs, st') ∧
      (∀ e ∈ loopEvs, e.isReplyText = false) ∧
      (∀ e ∈ postEvs, e.isReplyText = false) ∧
      (∀ r ∈ consumedResponses steps, r.function_calls ≠ [] →
        Event.sendToolResponses
            (r.function_calls.map (fun c => (c.name, toolOutput env c))) ∈
          loopEvs ∧
        ∀ c ∈ r.function_calls, c.name ∈ AVAILABLE_TOOLS →
          Event.toolExec c.name c.args ∈ loopEvs) := by
  refine ⟨loopEvents env steps, photoEvents (finalBuffer env steps st),
    ⟨some g, none⟩,
    handle_message_final env steps sOk t txt chat g st hses hend, ?_, ?_, ?_⟩
  · intro e he
    exact isReplyText_false_of_kind e (loopEvents_kinds env steps e he)
  · intro e he
    cases hb : finalBuffer env steps st with
    | none =>
      rw [hb] at he
      simp only [photoEvents] at he
      cases he
    | some b =>
      rw [hb] at he
      simp only [photoEvents] at he
      rcases List.mem_singleton.mp he with rfl
      rfl
  · intro r hr hne
    exact ⟨consumed_sendTool_mem env steps r hr hne,
      fun c hc hm => consumed_toolExec_mem env steps r hr c hc hm⟩

/-- C1 witness: a run with one `sql_query_executor` call followed by a
final answer satisfies the loop property. -/
theorem handle_message_C1_witness :
    ∃ loopEvs postEvs st',
      handle_message cexEnv wSteps true true ⟨some ⟨some "q"⟩, some 9⟩
          ⟨some 2, none⟩ =
        .ok (Event.sendUserText "q" :: loopEvs ++
          Event.replyText "итог" :: postEvs, st') ∧
      (∀ e ∈ loopEvs, e.isReplyText = false) ∧
      (∀ e ∈ postEvs, e.isReplyText = false) ∧
      (∀ r ∈ consumedResponses wSteps, r.function_calls ≠ [] →
        Event.sendToolResponses
            (r.function_calls.map (fun c => (c.name, toolOutput cexEnv c))) ∈
          loopEvs ∧
        ∀ c ∈ r.function_calls, c.name ∈ AVAILABLE_TOOLS →
          Event.toolExec c.name c.args ∈ loopEvs) :=
  handle_message_C1 cexEnv wSteps true "q" "итог" (some 9) 2 ⟨some 2, none⟩
    rfl (by decide)

/-! ## Claim C7 -/

/-- C7: no retries: in every completed handling of a text message the
number of follow-up messages carrying tool results equals the number of
consumed responses containing function calls (exactly one follow-up each),
the user text is sent exactly once and exactly one text reply is sent; and
when the API call raises, the trace is exactly the user-text send, the loop
events so far, and a single apologetic reply with nothing after it. -/
theorem handle_message_C7 (env : ToolEnv) (steps : List ModelStep)
    (sOk : Bool) (t : String) (chat : Option Nat) (g : Nat) (st : ChatState)
    (hses : st.gemini_chat = some g) :
    (∀ evs st',
      handle_message env steps true sOk ⟨some ⟨some t⟩, chat⟩ st =
        .ok (evs, st') →
      evs.countP Event.isSendToolResponses =
        (consumedResponses steps).countP (fun r => !r.function_calls.isEmpty) ∧
      evs.countP Event.isSendUserText = 1 ∧
      evs.countP Event.isReplyText = 1) ∧
    (loopEndp steps = .apiError →
      handle_message env steps true sOk ⟨some ⟨some t⟩, chat⟩ st =
        .ok (Event.sendUserText t :: loopEvents env steps ++
            [Event.replyText apiApologyMsg],
          ⟨some g, finalBuffer env steps st⟩)) := by
  obtain ⟨tail, stf, heq, hr1, hr2, hr3⟩ :=
    handle_message_events env steps sOk t chat g st hses
  refine ⟨?_, handle_message_api env steps sOk t chat g st hses⟩
  intro evs st' h
  rw [heq] at h
  simp only [Except.ok.injEq, Prod.mk.injEq] at h
  rcases h with ⟨rfl, rfl⟩
  refine ⟨?_, ?_, ?_⟩
  · simp [List.countP_cons, List.countP_append, Event.isSendToolResponses,
      loopEvents_sendTool_count, hr2]
  · simp [List.countP_cons, List.countP_append, Event.isSendUserText,
      loopEvents_userText_count, hr3]
  · simp [List.countP_cons, List.countP_append, Event.isReplyText,
      loopEvents_reply_count, hr1]

/-- C7 witness: a run whose follow-up send raises an APIError sends exactly
one tool-result follow-up, one user-text send, and one (apologetic)
reply. -/
theorem handle_message_C7_witness :
    (∀ evs st',
      handle_message strEnv wStepsApi true true ⟨some ⟨some "q"⟩, some 9⟩
          ⟨some 2, none⟩ =
        .ok (evs, st') →
      evs.countP Event.isSendToolResponses =
        (consumedResponses wStepsApi).countP
          (fun r => !r.function_calls.isEmpty) ∧
      evs.countP Event.isSendUserText = 1 ∧
      evs.countP Event.isReplyText = 1) ∧
    (loopEndp wStepsApi = .apiError →
      handle_message strEnv wStepsApi true true ⟨some ⟨some "q"⟩, some 9⟩
          ⟨some 2, none⟩ =
        .ok (Event.sendUserText "q" :: loopEvents strEnv wStepsApi ++
            [Event.replyText apiApologyMsg],
          ⟨some 2, finalBuffer strEnv wStepsApi ⟨some 2, none⟩⟩)) :=
  handle_message_C7 strEnv wStepsApi true "q" (some 9) 2 ⟨some 2, none⟩ rfl

/-! ## Claim C6 -/

/-- C6 counterexample: a reachable two-run scenario refutes the "photo if
and only if a plot_data call during the tool loop returned a buffer"
direction.  Run 1: a plot_data call stores buffer 7, then the follow-up
send raises an APIError — the handler apologises and the stored buffer
survives in the chat state.  Run 2 (same chat): the model answers with no
function calls at all, yet the handler sends a photo (the stale buffer),
with zero tool executions in the loop. -/
theorem handle_message_C6_counterexample :
    handle_message cexEnv cexSteps1 true true cexUpdate ⟨some 1, none⟩ =
      .ok ([Event.sendUserText "покажи график",
            Event.toolExec "plot_data" (.plotArgs "d" "t" "x" "y"),
            Event.sendToolResponses [("plot_data", plotSuccessMsg)],
            Event.replyText apiApologyMsg], ⟨some 1, some 7⟩) ∧
    handle_message cexEnv cexSteps2 true true cexUpdate ⟨some 1, some 7⟩ =
      .ok (cexRun2Events, ⟨some 1, none⟩) ∧
    cexRun2Events.countP Event.isSendPhoto = 1 ∧
    cexRun2Events.countP Event.isToolExec = 0 :=
  ⟨rfl, rfl, by decide, by decide⟩

/-- C6 amended: for every completed text-message handling (session present,
loop ending in a final text) exactly one text reply is sent (the final
text), and exactly one photo is sent if and only if the chat state holds a
plot buffer at the reply step — the last buffer a plot_data call of this
loop produced, or one left over from a previous handling; afterwards the
stored buffer is gone and gemini_chat is unchanged.  When the handler
starts with no stored buffer, the photo condition is exactly "some executed
call of this loop was a plot_data call whose result was a buffer". -/
theorem handle_message_C6 (env : ToolEnv) (steps : List ModelStep)
    (sOk : Bool) (t txt : String) (chat : Option Nat) (g : Nat)
    (st : ChatState) (hses : st.gemini_chat = some g)
    (hend : loopEndp steps = .finalText txt) :
    ∃ evs st',
      handle_message env steps true sOk ⟨some ⟨some t⟩, chat⟩ st =
        .ok (evs, st') ∧
      evs.countP Event.isReplyText = 1 ∧
      Event.replyText txt ∈ evs ∧
      evs.countP Event.isSendPhoto =
        (if (finalBuffer env steps st).isSome then 1 else 0) ∧
      st'.plot_buffer = none ∧
      st'.gemini_chat = st.gemini_chat ∧
      (st.plot_buffer = none →
        ((finalBuffer env steps st).isSome = true ↔
          ∃ r ∈ consumedResponses steps, ∃ c ∈ r.function_calls,
            c.name = "plot_data" ∧ ∃ b, env c = ToolResult.buf b)) := by
  refine ⟨_, _, handle_message_final env steps sOk t txt chat g st hses hend,
    ?_, ?_, ?_, rfl, hses.symm, ?_⟩
  · cases hb : finalBuffer env steps st <;>
      simp [hb, photoEvents, List.countP_cons, List.countP_append,
        Event.isReplyText, loopEvents_reply_count]
  · exact List.mem_cons_of_mem _
      (List.mem_append_right _ (List.mem_cons_self _ _))
  · cases hb : finalBuffer env steps st <;>
      simp [hb, photoEvents, List.countP_cons, List.countP_append,
        Event.isSendPhoto, loopEvents_photo_count]
  · intro h0
    unfold finalBuffer
    rw [h0, optOr_none_right, lastPlotBuf_isSome]
    constructor
    · rintro ⟨c, hc, hb⟩
      rcases (mem_allCalls steps c).mp hc with ⟨r, hr, hcr⟩
      rcases (callBuf_isSome env c).mp hb with ⟨hname, b, henv⟩
      exact ⟨r, hr, c, hcr, hname, b, henv⟩
    · rintro ⟨r, hr, c, hcr, hname, b, henv⟩
      exact ⟨c, (mem_allCalls steps c).mpr ⟨r, hr, hcr⟩,
        (callBuf_isSome env c).mpr ⟨hname, b, henv⟩⟩

/-- C6 witness (amended claim): a run whose loop executes one plot_data
call that returns a buffer ends with exactly one reply and one photo. -/
theorem handle_message_C6_witness :
    ∃ evs st',
      handle_message cexEnv wStepsPlot true true ⟨some ⟨some "q"⟩, some 9⟩
          ⟨some 2, none⟩ =
        .ok (evs, st') ∧
      evs.countP Event.isReplyText = 1 ∧
      Event.replyText "итог" ∈ evs ∧
      evs.countP Event.isSendPhoto =
        (if (finalBuffer cexEnv wStepsPlot ⟨some 2, none⟩).isSome
          then 1 else 0) ∧
      st'.plot_buffer = none ∧
      st'.gemini_chat = (ChatState.mk (some 2) none).gemini_chat ∧
      ((ChatState.mk (some 2) none).plot_buffer = none →
        ((finalBuffer cexEnv wStepsPlot ⟨some 2, none⟩).isSome = true ↔
          ∃ r ∈ consumedResponses wStepsPlot, ∃ c ∈ r.function_calls,
            c.name = "plot_data" ∧ ∃ b, cexEnv c = ToolResult.buf b)) :=
  handle_message_C6 cexEnv wStepsPlot true "q" "итог" (some 9) 2
    ⟨some 2, none⟩ rfl (by decide)

/-! ## Claim C5 -/

/-- C5 counterexample: a non-empty CSV whose x-column exists, on which
`plot_data` nevertheless returns no image buffer: the y-column "Volume" is
absent, so `df[y_col]` raises and the except-branch returns an
`ERROR_PLOT…` string. -/
theorem plot_data_C5_counterexample :
    (parseCsv "Date,Close\n2024-01-01,4").2 ≠ [] ∧
    "Date" ∈ (parseCsv "Date,Close\n2024-01-01,4").1 ∧
    (plot_data "Date,Close\n2024-01-01,4" "Динамика" "Date" "Volume").isBuffer
      = false := by
  refine ⟨by decide, by decide, by decide⟩

/-- C5 amended: for every non-empty rectangular CSV input whose x-column
and y-column both exist and whose x values all parse as dates, `plot_data`
returns an in-memory image buffer; the drawn chart carries the given title,
the Python-capitalised x and y column names as axis labels, and the rows as
points in nondecreasing date order (a permutation of the input's
(date, y-value) pairs). -/
theorem plot_data_C5 (data_csv title x_col y_col : String)
    (header : List String) (rows : List (List String))
    (xi yi : Nat) (dates : List Nat)
    (hparse : parseCsv data_csv = (header, rows))
    (hrect : rows.all (fun r => r.length == header.length) = true)
    (hne : rows ≠ [])
    (hx : header.findIdx? (fun c => c == x_col) = some xi)
    (hy : header.findIdx? (fun c => c == y_col) = some yi)
    (hdates : allSome (rows.map (fun r => (r.get? xi).bind parseDate)) =
      some dates) :
    ∃ pts,
      plot_data data_csv title x_col y_col =
        PlotResult.buffer ⟨title, pyCapitalize x_col, pyCapitalize y_col, pts⟩ ∧
      List.Sorted datePointLe pts ∧
      pts.Perm ((dates.zip rows).map
        (fun p => (p.1, (p.2.get? yi).getD ""))) := by
  have hh : header ≠ [] := by
    intro h
    rw [h] at hx
    simp [List.findIdx?] at hx
  refine ⟨(List.insertionSort dateRowLe (dates.zip rows)).map
      (fun p => (p.1, (p.2.get? yi).getD "")), ?_, ?_, ?_⟩
  · unfold plot_data
    rw [hparse]
    simp only [hh, hrect, hne, hx, hy, hdates, if_neg, not_true, not_false_iff,
      Bool.not_eq_true, if_false, ite_false, ite_true]
  · exact List.Pairwise.map _ (fun a b h => h)
      (List.sorted_insertionSort dateRowLe (dates.zip rows))
  · exact (List.perm_insertionSort dateRowLe (dates.zip rows)).map _

/-- C5 witness (amended claim): a two-row CSV given in reverse date order
is plotted sorted, with capitalised labels, as a buffer. -/
theorem plot_data_C5_witness :
    ∃ pts,
      plot_data "Date,Close\n2024-01-02,5\n2024-01-01,4" "Динамика" "Date"
          "Close" =
        PlotResult.buffer
          ⟨"Динамика", pyCapitalize "Date", pyCapitalize "Close", pts⟩ ∧
      List.Sorted datePointLe pts ∧
      pts.Perm (([20240102, 20240101].zip
          [["2024-01-02", "5"], ["2024-01-01", "4"]]).map
        (fun p => (p.1, (p.2.get? 1).getD ""))) :=
  plot_data_C5 "Date,Close\n2024-01-02,5\n2024-01-01,4" "Динамика" "Date"
    "Close" ["Date", "Close"] [["2024-01-02", "5"], ["2024-01-01", "4"]] 0 1
    [20240102, 20240101] (by decide) (by decide) (by decide) (by decide)
    (by decide) (by decide)
